import Mathlib

/-!
Model of the ToolBoxWebServices backend (expense tracking and tools endpoints).

The Django views, serializers and models are embedded shallowly:

* the record store is a `Db` structure holding lists of users, categories,
  tags and expense records;
* monetary amounts (decimal with 2 fractional digits in the source model)
  are represented exactly as integer hundredths, so all sums are exact;
* query parameters arrive as `Option String` (`none` = absent, `some ""` =
  present but empty, which Python truthiness treats like absent);
* `pyInt` models the Python `int(...)` conversion applied to the `userid`
  parameter, `pyFloat` models `float(...)` on strings (decimal literals with
  optional sign, fraction and exponent; the special forms inf/nan and digit
  underscores accepted by Python are not represented);
* each endpoint is a function returning `Except` of an error enumeration
  mirroring the distinct error responses of the source, with `nameError`
  standing for the unhandled NameError raised where `expenses/views.py`
  references `PermissionDenied` without importing it (a 500, not a 4xx);
* the order in which a SQL GROUP BY presents its groups is not specified;
  the model materialises it as first-appearance order over the stored list,
  and `order_by` clauses become stable insertion sorts on exactly the keys
  the source names.
-/

/-- Whitespace recognised by Python `str.strip` (the common subset). -/
def isPyWs (c : Char) : Bool :=
  c == ' ' || c == '\t' || c == '\n' || c == '\r' || c == '\x0b' || c == '\x0c'

/-- Drop leading whitespace characters. -/
def dropWs : List Char → List Char
  | c :: rest => if isPyWs c then dropWs rest else c :: rest
  | [] => []

/-- Strip leading and trailing whitespace, as Python `str.strip()`. -/
def stripChars (cs : List Char) : List Char :=
  ((dropWs ((dropWs cs).reverse)).reverse)

/-- Accumulate a digit string into a natural number. -/
def digitsToNat (cs : List Char) : Nat :=
  cs.foldl (fun a c => a * 10 + (c.toNat - 48)) 0

/-- Python `int(s)` on a string: optional surrounding whitespace, optional
sign, then at least one decimal digit; anything else raises ValueError,
modelled as `none`. -/
def pyInt (s : String) : Option Int :=
  match stripChars s.data with
  | [] => none
  | c :: rest =>
    let signed : Bool × List Char :=
      if c == '-' then (true, rest)
      else if c == '+' then (false, rest) else (false, c :: rest)
    match signed with
    | (neg, ds) =>
      if ds.isEmpty then none
      else if ds.all Char.isDigit then
        some (if neg then -(Int.ofNat (digitsToNat ds)) else Int.ofNat (digitsToNat ds))
      else none

/-- Calendar date as stored on an expense row (`models.DateField`). -/
structure Date where
  year : Int
  month : Int
  day : Int
deriving DecidableEq

/-- Lexicographic order on dates, used by the `date__gte` / `date__lte`
filters. -/
def dateLe (a b : Date) : Bool :=
  if a.year ≠ b.year then decide (a.year < b.year)
  else if a.month ≠ b.month then decide (a.month < b.month)
  else decide (a.day ≤ b.day)

/-- The auth user rows referenced by `user_id` / `user__is_active`. -/
structure User where
  id : Int
  isActive : Bool
deriving DecidableEq

/-- `ExpenseCategory` rows (global, not per account). -/
structure ExpenseCategory where
  id : Int
  name : String
  color : String
  transactionType : String
  isActive : Bool
deriving DecidableEq

/-- `ExpenseTag` rows, each owned by one user. -/
structure ExpenseTag where
  id : Int
  name : String
  userId : Int
deriving DecidableEq

/-- `Expense` rows. `amount` is the exact decimal amount in hundredths. -/
structure Expense where
  id : Int
  userId : Int
  amount : Int
  transactionType : String
  categoryId : Int
  date : Date
  tagIds : List Int
deriving DecidableEq

/-- The relational store backing the endpoints. -/
structure Db where
  users : List User
  categories : List ExpenseCategory
  tags : List ExpenseTag
  expenses : List Expense
deriving DecidableEq

/-- Whether the user row with the given id exists and is active
(the `user__is_active=True` join condition). -/
def userActive (db : Db) (uid : Int) : Bool :=
  match db.users.find? (fun u => u.id == uid) with
  | some u => u.isActive
  | none => false

/-- `ExpenseViewSet.get_queryset`: absent, empty or unparsable `userid`
yields the empty queryset, otherwise the expenses of that active user. -/
def get_queryset (db : Db) (userid : Option String) : List Expense :=
  match userid with
  | none => []
  | some s =>
    if s == "" then []
    else
      match pyInt s with
      | none => []
      | some uid => db.expenses.filter (fun e => e.userId == uid && userActive db uid)

/-- `ExpenseTagViewSet.get_queryset`: same scoping discipline for tags. -/
def tag_queryset (db : Db) (userid : Option String) : List ExpenseTag :=
  match userid with
  | none => []
  | some s =>
    if s == "" then []
    else
      match pyInt s with
      | none => []
      | some uid => db.tags.filter (fun t => t.userId == uid && userActive db uid)

/-- DRF `get_object`: look the primary key up inside the scoped queryset;
a miss raises Http404. -/
def get_object (db : Db) (userid : Option String) (pk : Int) : Option Expense :=
  (get_queryset db userid).find? (fun e => e.id == pk)

/-- Decidable equality for responses, so concrete endpoint evaluations can
be settled by `decide`. -/
instance instDecEqExceptResp {ε α : Type} [DecidableEq ε] [DecidableEq α] :
    DecidableEq (Except ε α) := fun a b =>
  match a, b with
  | Except.ok x, Except.ok y =>
    if h : x = y then Decidable.isTrue (congrArg Except.ok h)
    else Decidable.isFalse (fun hc => h (by cases hc; rfl))
  | Except.error x, Except.error y =>
    if h : x = y then Decidable.isTrue (congrArg Except.error h)
    else Decidable.isFalse (fun hc => h (by cases hc; rfl))
  | Except.ok _, Except.error _ => Decidable.isFalse (fun hc => Except.noConfusion hc)
  | Except.error _, Except.ok _ => Decidable.isFalse (fun hc => Except.noConfusion hc)

/-- Error responses of the expense endpoints. `nameError` models the
unhandled `NameError` raised because `PermissionDenied` is referenced but
never imported in `expenses/views.py` (surfaced as a 500 server error). -/
inductive ExpErr where
  | badRequest (msg : String)
  | notFound
  | nameError
  | valueError
deriving DecidableEq

/-- `retrieve` (GET of one record): 404 when the scoped lookup misses. -/
def retrieve (db : Db) (userid : Option String) (pk : Int) : Except ExpErr Expense :=
  match get_object db userid pk with
  | some e => Except.ok e
  | none => Except.error ExpErr.notFound

/-- `update` restricted to the amount field (representative mutation):
resolves the object through the scoped queryset, then writes. -/
def update_expense_amount (db : Db) (userid : Option String) (pk : Int)
    (newAmount : Int) : Except ExpErr Expense × Db :=
  match get_object db userid pk with
  | none => (Except.error ExpErr.notFound, db)
  | some e =>
    let e1 := { e with amount := newAmount }
    (Except.ok e1, { db with expenses := db.expenses.map (fun x => if x.id == pk then e1 else x) })

/-- `destroy`: resolves the object through the scoped queryset, then
deletes the row. -/
def destroy_expense (db : Db) (userid : Option String) (pk : Int) :
    Except ExpErr Unit × Db :=
  match get_object db userid pk with
  | none => (Except.error ExpErr.notFound, db)
  | some _ => (Except.ok (), { db with expenses := db.expenses.filter (fun x => x.id != pk) })

/-- The `date_from` / `date_to` narrowing performed inside `summary`
before aggregation (each bound applied only when the parameter is truthy). -/
def summary_queryset (db : Db) (userid : Option String)
    (dateFrom dateTo : Option Date) : List Expense :=
  match dateFrom, dateTo with
  | none, none => get_queryset db userid
  | some d, none => (get_queryset db userid).filter (fun e => dateLe d e.date)
  | none, some d => (get_queryset db userid).filter (fun e => dateLe e.date d)
  | some d1, some d2 =>
    ((get_queryset db userid).filter (fun e => dateLe d1 e.date)).filter
      (fun e => dateLe e.date d2)

/-- SQL `Sum('amount', filter=Q(transaction_type=t))`: `NULL` (here `none`)
when no row matches the filter, otherwise the exact sum. -/
def aggregate_sum (q : List Expense) (t : String) : Option Int :=
  match q.filter (fun e => e.transactionType == t) with
  | [] => none
  | x :: xs => some (((x :: xs).map Expense.amount).sum)

/-- Plain sum of the amounts of the records of one transaction kind
(0 when there is none). -/
def kind_sum (q : List Expense) (t : String) : Int :=
  ((q.filter (fun e => e.transactionType == t)).map Expense.amount).sum

/-- `category__name` of an expense row (inner join on the category table;
the foreign key is non-null in the source model). -/
def category_name (db : Db) (e : Expense) : String :=
  match db.categories.find? (fun c => c.id == e.categoryId) with
  | some c => c.name
  | none => ""

/-- Group keys in first-appearance order: the model of the order in which
the SQL GROUP BY presents its groups, which no clause in the source pins
down. -/
def dedupFirst {α : Type} [DecidableEq α] (l : List α) : List α :=
  l.foldl (fun acc n => if n ∈ acc then acc else acc ++ [n]) []

/-- One step of a stable insertion sort realising `order_by('-total')`:
the inserted pair goes after strictly larger totals only, so rows with
equal totals keep their incoming relative order. -/
def insertByTotalDesc (x : String × Int) : List (String × Int) → List (String × Int)
  | [] => [x]
  | y :: ys => if x.2 < y.2 then y :: insertByTotalDesc x ys else x :: y :: ys

/-- Stable sort by total, descending (`order_by('-total')`). -/
def sortByTotalDesc (l : List (String × Int)) : List (String × Int) :=
  l.foldr insertByTotalDesc []

/-- Sum of the amounts of the expense-kind records of one category name
within a record set. -/
def expense_category_sum (db : Db) (q : List Expense) (n : String) : Int :=
  (((q.filter (fun e => e.transactionType == "expense")).filter
    (fun e => category_name db e == n)).map Expense.amount).sum

/-- The category breakdown computed by `ExpenseViewSet.summary`: group the
expense-kind rows by category name, sum each group, order by total
descending. -/
def category_breakdown (db : Db) (q : List Expense) : List (String × Int) :=
  sortByTotalDesc
    ((dedupFirst ((q.filter (fun e => e.transactionType == "expense")).map
      (category_name db))).map
      (fun n => (n, expense_category_sum db q n)))

/-- Strict lexicographic order on character lists by code point. -/
def charListLt : List Char → List Char → Bool
  | [], [] => false
  | [], _ :: _ => true
  | _ :: _, [] => false
  | a :: as, b :: bs =>
    if a.toNat < b.toNat then true
    else if b.toNat < a.toNat then false
    else charListLt as bs

/-- Strict lexicographic order on strings by code point. -/
def strLtB (a b : String) : Bool := charListLt a.data b.data

/-- Modelled from the spec: the breakdown ordering the spec describes,
total descending with ties broken by category name ascending. The source
orders by total only, so this second definition exists to be compared with
`category_breakdown`. -/
def insertBySpecOrder (x : String × Int) : List (String × Int) → List (String × Int)
  | [] => [x]
  | y :: ys =>
    if x.2 < y.2 || (x.2 == y.2 && strLtB y.1 x.1)
    then y :: insertBySpecOrder x ys
    else x :: y :: ys

/-- Modelled from the spec: sort by total descending, then name ascending. -/
def spec_category_breakdown (db : Db) (q : List Expense) : List (String × Int) :=
  ((dedupFirst ((q.filter (fun e => e.transactionType == "expense")).map
    (category_name db))).map
    (fun n => (n, expense_category_sum db q n))).foldr insertBySpecOrder []

/-- The summary payload built by `ExpenseViewSet.summary`. -/
structure Summary where
  totalExpenses : Int
  totalIncome : Int
  totalDebt : Int
  totalCredit : Int
  netBalance : Int
  transactionCount : Nat
  categoryBreakdown : List (String × Int)
deriving DecidableEq

/-- The aggregation step of `ExpenseViewSet.summary` over the filtered
queryset: per-kind totals computed as `Sum(...) or 0`, the net balance,
the record count, the category breakdown. -/
def summary_of (db : Db) (q : List Expense) : Summary :=
  ⟨(aggregate_sum q "expense").getD 0,
   (aggregate_sum q "income").getD 0,
   (aggregate_sum q "debt").getD 0,
   (aggregate_sum q "credit").getD 0,
   ((aggregate_sum q "income").getD 0 + (aggregate_sum q "credit").getD 0)
     - ((aggregate_sum q "expense").getD 0 + (aggregate_sum q "debt").getD 0),
   q.length,
   category_breakdown db q⟩

/-- `ExpenseViewSet.summary`: validate the scope parameter (400 on absence
or on an id that resolves to no active user), then aggregate over the
scoped, date-filtered queryset. -/
def summary (db : Db) (userid : Option String) (dateFrom dateTo : Option Date) :
    Except ExpErr Summary :=
  match userid with
  | none => Except.error (ExpErr.badRequest "userid parameter is required")
  | some s =>
    if s == "" then Except.error (ExpErr.badRequest "userid parameter is required")
    else
      match pyInt s with
      | none => Except.error (ExpErr.badRequest "Invalid userid parameter")
      | some uid =>
        if userActive db uid then
          Except.ok (summary_of db (summary_queryset db (some s) dateFrom dateTo))
        else Except.error (ExpErr.badRequest "Invalid userid parameter")

/-- `category__color` of an expense row, as `category_name`. -/
def category_color (db : Db) (e : Expense) : String :=
  match db.categories.find? (fun c => c.id == e.categoryId) with
  | some c => c.color
  | none => ""

/-- Strict version of `dateLe`. -/
def dateLtB (a b : Date) : Bool := dateLe a b && !(dateLe b a)

/-- One step of a stable insertion sort for `order_by('date')` on day
groups (date ascending). -/
def insertByDateAsc (x : Date × Int × Nat) :
    List (Date × Int × Nat) → List (Date × Int × Nat)
  | [] => [x]
  | y :: ys => if dateLtB y.1 x.1 then y :: insertByDateAsc x ys else x :: y :: ys

/-- Per-day totals of `monthly_report`: group by date with sum and count,
ordered by date ascending. -/
def daily_totals (q : List Expense) : List (Date × Int × Nat) :=
  ((dedupFirst (q.map Expense.date)).map
    (fun d => (d, ((q.filter (fun e => e.date == d)).map Expense.amount).sum,
               (q.filter (fun e => e.date == d)).length))).foldr insertByDateAsc []

/-- One step of a stable insertion sort for `order_by('-total')` on
(name, color, total, count) category groups. -/
def insertByTotalDesc4 (x : String × String × Int × Nat) :
    List (String × String × Int × Nat) → List (String × String × Int × Nat)
  | [] => [x]
  | y :: ys => if x.2.2.1 < y.2.2.1 then y :: insertByTotalDesc4 x ys else x :: y :: ys

/-- Per-category totals of `monthly_report`: group by (name, color) with
sum and count, ordered by total descending. -/
def category_totals (db : Db) (q : List Expense) : List (String × String × Int × Nat) :=
  ((dedupFirst (q.map (fun e => (category_name db e, category_color db e)))).map
    (fun k => (k.1, k.2,
      ((q.filter (fun e => category_name db e == k.1 && category_color db e == k.2)).map
        Expense.amount).sum,
      (q.filter (fun e => category_name db e == k.1 && category_color db e == k.2)).length))).foldr
    insertByTotalDesc4 []

/-- The month narrowing of `monthly_report`: `date__year` and
`date__month` equality filters on the scoped queryset. -/
def month_queryset (db : Db) (userid : Option String) (yv mv : Int) : List Expense :=
  (get_queryset db userid).filter (fun e => e.date.year == yv && e.date.month == mv)

/-- The report payload of `ExpenseViewSet.monthly_report`. -/
structure MonthlyReport where
  year : Int
  month : Int
  dailyTotals : List (Date × Int × Nat)
  categoryTotals : List (String × String × Int × Nat)
  totalAmount : Int
  totalCount : Nat
deriving DecidableEq

/-- The report computed over the month queryset. The grand total uses
`Sum(...) or 0`, which coincides with the plain sum in every case. -/
def monthly_report_of (db : Db) (userid : Option String) (yv mv : Int) : MonthlyReport :=
  ⟨yv, mv,
   daily_totals (month_queryset db userid yv mv),
   category_totals db (month_queryset db userid yv mv),
   ((month_queryset db userid yv mv).map Expense.amount).sum,
   (month_queryset db userid yv mv).length⟩

/-- A year or month query parameter: the current value when absent,
otherwise the Python `int(...)` of the supplied string (the `date__year`
and `date__month` lookups and the final `int(year)` raise ValueError on a
non-numeric string, a 500). -/
def parse_param_or (dflt : Int) (p : Option String) : Option Int :=
  match p with
  | none => some dflt
  | some s => pyInt s

/-- `ExpenseViewSet.monthly_report`: validate the scope parameter exactly
as `summary` does, then build the report for the requested year and month.
No range check is performed on the month. -/
def monthly_report (db : Db) (userid : Option String)
    (yearParam monthParam : Option String) (now : Date) :
    Except ExpErr MonthlyReport :=
  match userid with
  | none => Except.error (ExpErr.badRequest "userid parameter is required")
  | some s =>
    if s == "" then Except.error (ExpErr.badRequest "userid parameter is required")
    else
      match pyInt s with
      | none => Except.error (ExpErr.badRequest "Invalid userid parameter")
      | some uid =>
        if userActive db uid then
          match parse_param_or now.year yearParam, parse_param_or now.month monthParam with
          | some yv, some mv => Except.ok (monthly_report_of db (some s) yv mv)
          | some _, none => Except.error ExpErr.valueError
          | none, _ => Except.error ExpErr.valueError
        else Except.error (ExpErr.badRequest "Invalid userid parameter")

/-- Store for the C4 counterexample: one active user with one January
expense. -/
def c4db : Db :=
  ⟨[⟨1, true⟩], [⟨1, "Food", "#fff", "expense", true⟩], [],
   [⟨1, 1, 1000, "expense", 1, ⟨2024, 1, 10⟩, []⟩]⟩

/-- Expected summary payload for the C2 witness store. -/
def c2sum : Summary := ⟨1500, 5000, 0, 0, 3500, 3, [("Food", 1500)]⟩

/-- Summary payload the code computes on the C6 store: the tied groups
come out in stored order "b" before "a", not name-ascending. -/
def c6sum : Summary := ⟨1000, 0, 0, 0, -1000, 2, [("b", 500), ("a", 500)]⟩

/-- Concrete store for C2: user 1 with two expenses and one income. -/
def c2db : Db :=
  ⟨[⟨1, true⟩],
   [⟨1, "Food", "#fff", "expense", true⟩, ⟨2, "Salary", "#fff", "income", true⟩],
   [],
   [⟨1, 1, 1000, "expense", 1, ⟨2024, 1, 2⟩, []⟩,
    ⟨2, 1, 5000, "income", 2, ⟨2024, 1, 3⟩, []⟩,
    ⟨3, 1, 500, "expense", 1, ⟨2024, 1, 4⟩, []⟩]⟩

/-- Concrete store for C6: two expense categories stored as "b" before
"a", each with a single 5.00 expense, so the two groups tie on total. -/
def c6db : Db :=
  ⟨[⟨1, true⟩],
   [⟨1, "b", "#fff", "expense", true⟩, ⟨2, "a", "#fff", "expense", true⟩],
   [],
   [⟨1, 1, 500, "expense", 1, ⟨2024, 1, 2⟩, []⟩,
    ⟨2, 1, 500, "expense", 2, ⟨2024, 1, 3⟩, []⟩]⟩

/-- Concrete store for witnesses: two active users, user 2 owns expense 10. -/
def c1exp : Expense := ⟨10, 2, 500, "expense", 1, ⟨2024, 1, 1⟩, []⟩

def c1db : Db :=
  ⟨[⟨1, true⟩, ⟨2, true⟩], [⟨1, "Food", "#fff", "expense", true⟩], [], [c1exp]⟩

/-- The `list` action of `ExpenseViewSet`: the scoped queryset (default
ordering and pagination elided; an absent scope yields the empty set). -/
def list_expenses (db : Db) (userid : Option String) : List Expense :=
  get_queryset db userid

/-- The `list` action of `ExpenseTagViewSet`. -/
def list_tags (db : Db) (userid : Option String) : List ExpenseTag :=
  tag_queryset db userid

/-- Validation errors raised by `ExpenseCreateSerializer` (all surfaced as
400 ValidationError responses). -/
inductive ValErr where
  | amountNotPositive
  | categoryRequired
  | invalidCategory
  | typeMismatch
deriving DecidableEq

/-- Create payload after schema typing: `category_id` and
`transaction_type` are optional at the payload level. -/
structure CreatePayload where
  amount : Int
  transactionType : Option String
  categoryId : Option Int
  description : String
  date : Date
  tagIds : List Int
deriving DecidableEq

/-- Category lookup by primary key. -/
def find_category (db : Db) (cid : Int) : Option ExpenseCategory :=
  db.categories.find? (fun c => c.id == cid)

/-- `validate_amount` plus `ExpenseCreateSerializer.validate`: the amount
must be positive; a category id must be supplied and truthy and must
resolve; a supplied, truthy transaction type must equal the category
type. -/
def validate_create (db : Db) (d : CreatePayload) : Except ValErr Unit :=
  if d.amount ≤ 0 then Except.error ValErr.amountNotPositive
  else
    match d.categoryId with
    | none => Except.error ValErr.categoryRequired
    | some cid =>
      if cid == 0 then Except.error ValErr.categoryRequired
      else
        match find_category db cid with
        | none => Except.error ValErr.invalidCategory
        | some cat =>
          match d.transactionType with
          | none => Except.ok ()
          | some t =>
            if t == "" then Except.ok ()
            else if cat.transactionType == t then Except.ok ()
            else Except.error ValErr.typeMismatch

/-- Failures of the create endpoint: a 400 ValidationError from the
serializer, or the unhandled NameError (500) from `perform_create`. -/
inductive CreateErr where
  | validation (e : ValErr)
  | nameError
deriving DecidableEq

/-- The scope resolution attempted by `ExpenseViewSet.perform_create`.
Every failure path executes `raise PermissionDenied(...)`, but that name
is not imported in `expenses/views.py`, so each returns `none` here,
mapped to NameError by the caller. -/
def perform_create_user (db : Db) (userid : Option String) : Option Int :=
  match userid with
  | none => none
  | some s =>
    if s == "" then none
    else
      match pyInt s with
      | none => none
      | some uid => if userActive db uid then some uid else none

/-- The transaction type stored on the created row: the model `save`
falls back to the category type when the field is empty, and the model
default is `expense` when the field is absent. -/
def effective_ttype (db : Db) (d : CreatePayload) : String :=
  match d.transactionType with
  | none => "expense"
  | some t =>
    if t == "" then
      ((find_category db (d.categoryId.getD 0)).map ExpenseCategory.transactionType).getD ""
    else t

/-- `ExpenseViewSet.create`: DRF runs serializer validation first (400 on
failure, nothing persisted), then `perform_create` resolves the scope
(NameError on absence or invalidity), then the serializer `create`
persists the row and attaches the owned tags among `tag_ids`. -/
def create_expense (db : Db) (userid : Option String) (newId : Int)
    (d : CreatePayload) : Except CreateErr Expense × Db :=
  match validate_create db d with
  | Except.error e => (Except.error (CreateErr.validation e), db)
  | Except.ok () =>
    match perform_create_user db userid with
    | none => (Except.error CreateErr.nameError, db)
    | some uid =>
      let ex : Expense := ⟨newId, uid, d.amount, effective_ttype db d,
        d.categoryId.getD 0, d.date,
        (db.tags.filter (fun t => d.tagIds.contains t.id && t.userId == uid)).map
          ExpenseTag.id⟩
      (Except.ok ex, { db with expenses := db.expenses ++ [ex] })

/-- The tag rows `add_tags` / `remove_tags` operate with: among the
requested ids, only tags owned by the scoped active account. -/
def owned_tag_rows (db : Db) (uid : Int) (tagIds : List Int) : List ExpenseTag :=
  db.tags.filter (fun t => decide (t.id ∈ tagIds) && t.userId == uid && userActive db uid)

/-- A tag id that belongs to the scoped active account. -/
def owned_active_tag (db : Db) (uid tid : Int) : Prop :=
  ∃ tg ∈ db.tags, tg.id = tid ∧ tg.userId = uid ∧ userActive db uid = true

/-- The tag set after `expense.tags.add(*tags)`: existing relations kept,
new ones appended without duplicates. -/
def added_tag_ids (db : Db) (uid : Int) (tagIds : List Int) (old : List Int) : List Int :=
  (owned_tag_rows db uid tagIds).foldl
    (fun acc t => if t.id ∈ acc then acc else acc ++ [t.id]) old

/-- The tag set after `expense.tags.remove(*tags)`. -/
def removed_tag_ids (db : Db) (uid : Int) (tagIds : List Int) (old : List Int) : List Int :=
  old.filter (fun tid => !(decide (tid ∈ (owned_tag_rows db uid tagIds).map ExpenseTag.id)))

/-- `ExpenseViewSet.add_tags`: resolve the expense through the scoped
queryset (404 on a miss), reject an empty `tag_ids` (400), re-check the
scope parameter (400), then attach only the owned tags among the
requested ids — foreign or non-existent ids are silently dropped by the
ownership filter. -/
def add_tags (db : Db) (userid : Option String) (pk : Int) (tagIds : List Int) :
    Except ExpErr Expense × Db :=
  match get_object db userid pk with
  | none => (Except.error ExpErr.notFound, db)
  | some e =>
    if tagIds = [] then (Except.error (ExpErr.badRequest "tag_ids is required"), db)
    else
      match userid with
      | none => (Except.error (ExpErr.badRequest "userid parameter is required"), db)
      | some s =>
        if s = "" then (Except.error (ExpErr.badRequest "userid parameter is required"), db)
        else
          match pyInt s with
          | none => (Except.error (ExpErr.badRequest "Invalid userid parameter"), db)
          | some uid =>
            let e1 := { e with tagIds := added_tag_ids db uid tagIds e.tagIds }
            (Except.ok e1,
             { db with expenses := db.expenses.map (fun x => if x.id == pk then e1 else x) })

/-- `ExpenseViewSet.remove_tags`: same checks, then detach only the owned
tags among the requested ids. -/
def remove_tags (db : Db) (userid : Option String) (pk : Int) (tagIds : List Int) :
    Except ExpErr Expense × Db :=
  match get_object db userid pk with
  | none => (Except.error ExpErr.notFound, db)
  | some e =>
    if tagIds = [] then (Except.error (ExpErr.badRequest "tag_ids is required"), db)
    else
      match userid with
      | none => (Except.error (ExpErr.badRequest "userid parameter is required"), db)
      | some s =>
        if s = "" then (Except.error (ExpErr.badRequest "userid parameter is required"), db)
        else
          match pyInt s with
          | none => (Except.error (ExpErr.badRequest "Invalid userid parameter"), db)
          | some uid =>
            let e1 := { e with tagIds := removed_tag_ids db uid tagIds e.tagIds }
            (Except.ok e1,
             { db with expenses := db.expenses.map (fun x => if x.id == pk then e1 else x) })

/-- Store for the C10 witness: tag 5 owned by user 1, tag 6 owned by
user 2; expense 10 of user 1 currently carries tag 6. -/
def c10exp : Expense := ⟨10, 1, 500, "expense", 1, ⟨2024, 1, 1⟩, [6]⟩

def c10db : Db :=
  ⟨[⟨1, true⟩, ⟨2, true⟩],
   [⟨1, "Food", "#fff", "expense", true⟩],
   [⟨5, "mine", 1⟩, ⟨6, "theirs", 2⟩],
   [c10exp]⟩

/-- A payload whose supplied kind (income) conflicts with the declared
kind (expense) of category 1 of the C2 store. -/
def c8payload : CreatePayload := ⟨100, some "income", some 1, "x", ⟨2024, 1, 5⟩, []⟩

/-- A valid payload for category 1 of the C2 store (kinds agree). -/
def c7payload : CreatePayload := ⟨100, some "expense", some 1, "x", ⟨2024, 1, 5⟩, []⟩

/-- JSON values, as produced by `json.loads` on the `array` query
parameter and by the request-body parser. -/
inductive Json where
  | null
  | bool (b : Bool)
  | num (q : Rat)
  | str (s : String)
  | arr (xs : List Json)
  | obj (fields : List (String × Json))

/-- Split leading decimal digits from a character stream. -/
def takeDigits : List Char → List Char × List Char
  | c :: cs =>
    if c.isDigit then
      match takeDigits cs with
      | (ds, rest) => (c :: ds, rest)
    else ([], c :: cs)
  | [] => ([], [])

/-- Optional exponent part `e|E [+|-] digits`; absent exponent is 0. -/
def parseExpPart : List Char → Option (Int × List Char)
  | c :: cs =>
    if c == 'e' || c == 'E' then
      match
        (match cs with
         | '-' :: r => (true, r)
         | '+' :: r => (false, r)
         | _ => (false, cs)) with
      | (eneg, cs1) =>
        match takeDigits cs1 with
        | ([], _) => none
        | (d :: ds, rest) =>
          some ((if eneg then -(Int.ofNat (digitsToNat (d :: ds)))
                 else Int.ofNat (digitsToNat (d :: ds))), rest)
    else some (0, c :: cs)
  | [] => some (0, [])

/-- Scale a rational by a power of ten. -/
def applyExp (q : Rat) (e : Int) : Rat :=
  if 0 ≤ e then q * (10 : Rat) ^ e.toNat else q / (10 : Rat) ^ (-e).toNat

/-- A number of the JSON grammar: `-? int frac? exp?` with `int` either 0
or free of leading zeros, and a fraction requiring at least one digit. -/
def parseJsonNumber (cs : List Char) : Option (Rat × List Char) :=
  match
    (match cs with
     | '-' :: r => (true, r)
     | _ => (false, cs)) with
  | (neg, cs1) =>
    match takeDigits cs1 with
    | ([], _) => none
    | (d :: ds, r1) =>
      if d == '0' && !ds.isEmpty then none
      else
        match
          (match r1 with
           | '.' :: r =>
             match takeDigits r with
             | ([], _) => none
             | (fs, r2) => some (fs, r2)
           | _ => some ([], r1)) with
        | none => none
        | some (fs, r2) =>
          match parseExpPart r2 with
          | none => none
          | some (e, r3) =>
            let mant : Rat :=
              (digitsToNat (d :: ds) : Rat)
                + (digitsToNat fs : Rat) / (10 : Rat) ^ fs.length
            some (applyExp (if neg then -mant else mant) e, r3)

/-- The single-character escape table of JSON strings, by code point
(the `\u` form is not represented in this model). -/
def unescape? : Char → Option Char
  | '"' => some '"'
  | '\\' => some '\\'
  | '/' => some '/'
  | 'b' => some (Char.ofNat 8)
  | 'f' => some (Char.ofNat 12)
  | 'n' => some (Char.ofNat 10)
  | 'r' => some (Char.ofNat 13)
  | 't' => some (Char.ofNat 9)
  | _ => none

/-- Body of a JSON string after the opening quote, up to the closing
quote. -/
def parseStringChars : List Char → Option (List Char × List Char)
  | [] => none
  | '"' :: rest => some ([], rest)
  | '\\' :: c :: rest =>
    match unescape? c with
    | some ch =>
      match parseStringChars rest with
      | some (out, r2) => some (ch :: out, r2)
      | none => none
    | none => none
  | c :: rest =>
    match parseStringChars rest with
    | some (out, r2) => some (c :: out, r2)
    | none => none

/-- JSON whitespace. -/
def skipJWs : List Char → List Char
  | c :: cs =>
    if c == ' ' || c == '\t' || c == '\n' || c == '\r' then skipJWs cs
    else c :: cs
  | [] => []

mutual

/-- One JSON value, fuel-bounded recursive descent. -/
def parseJsonValue : Nat → List Char → Option (Json × List Char)
  | 0, _ => none
  | Nat.succ fuel, cs =>
    match skipJWs cs with
    | [] => none
    | 'n' :: rest =>
      match rest with
      | 'u' :: 'l' :: 'l' :: r => some (Json.null, r)
      | _ => none
    | 't' :: rest =>
      match rest with
      | 'r' :: 'u' :: 'e' :: r => some (Json.bool true, r)
      | _ => none
    | 'f' :: rest =>
      match rest with
      | 'a' :: 'l' :: 's' :: 'e' :: r => some (Json.bool false, r)
      | _ => none
    | '"' :: rest =>
      match parseStringChars rest with
      | some (content, r) => some (Json.str (String.mk content), r)
      | none => none
    | '[' :: rest =>
      match skipJWs rest with
      | ']' :: r => some (Json.arr [], r)
      | cs2 =>
        match parseJsonItems fuel cs2 with
        | some (xs, r) => some (Json.arr xs, r)
        | none => none
    | '\x7b' :: rest =>
      match skipJWs rest with
      | '\x7d' :: r => some (Json.obj [], r)
      | cs2 =>
        match parseJsonMembers fuel cs2 with
        | some (fields, r) => some (Json.obj fields, r)
        | none => none
    | cs1 =>
      match parseJsonNumber cs1 with
      | some (q, r) => some (Json.num q, r)
      | none => none

/-- Comma-separated JSON array items up to the closing bracket. -/
def parseJsonItems : Nat → List Char → Option (List Json × List Char)
  | 0, _ => none
  | Nat.succ fuel, cs =>
    match parseJsonValue fuel cs with
    | none => none
    | some (v, r) =>
      match skipJWs r with
      | ',' :: r2 =>
        match parseJsonItems fuel r2 with
        | some (vs, r3) => some (v :: vs, r3)
        | none => none
      | ']' :: r2 => some ([v], r2)
      | _ => none

/-- Comma-separated JSON object members up to the closing brace. -/
def parseJsonMembers : Nat → List Char → Option (List (String × Json) × List Char)
  | 0, _ => none
  | Nat.succ fuel, cs =>
    match skipJWs cs with
    | '"' :: rest =>
      match parseStringChars rest with
      | none => none
      | some (key, r) =>
        match skipJWs r with
        | ':' :: r2 =>
          match parseJsonValue fuel r2 with
          | none => none
          | some (v, r3) =>
            match skipJWs r3 with
            | ',' :: r4 =>
              match parseJsonMembers fuel r4 with
              | some (fields, r5) => some ((String.mk key, v) :: fields, r5)
              | none => none
            | '\x7d' :: r4 => some ([(String.mk key, v)], r4)
            | _ => none
        | _ => none
    | _ => none

end

/-- `json.loads` on a whole string: one value, then only whitespace. -/
def parseJson (s : String) : Option Json :=
  match parseJsonValue (2 * s.length + 2) s.data with
  | some (v, r) => if (skipJWs r).isEmpty then some v else none
  | none => none

/-- Python `float(s)`: optional surrounding whitespace and sign, then
digits with an optional dot on either side (at least one digit in the
mantissa) and an optional exponent. The inf/nan words and digit
underscores are not represented. -/
def pyFloat (s : String) : Option Rat :=
  match
    (match stripChars s.data with
     | '-' :: r => (true, r)
     | '+' :: r => (false, r)
     | cs => (false, cs)) with
  | (neg, cs1) =>
    match takeDigits cs1 with
    | (ip, r1) =>
      match
        (match r1 with
         | '.' :: r => takeDigits r
         | _ => ([], r1)) with
      | (fp, r2) =>
        if ip.isEmpty && fp.isEmpty then none
        else
          match parseExpPart r2 with
          | none => none
          | some (e, r3) =>
            if r3.isEmpty then
              let mant : Rat :=
                (digitsToNat ip : Rat) + (digitsToNat fp : Rat) / (10 : Rat) ^ fp.length
              some (applyExp (if neg then -mant else mant) e)
            else none

/-- Python `float(x)` on a decoded JSON value: numbers pass through,
booleans coerce to 1 and 0, numeric strings parse; anything else raises
(TypeError), modelled as `none`. -/
def jsonToPyFloat : Json → Option Rat
  | Json.num q => some q
  | Json.bool b => some (if b then 1 else 0)
  | Json.str s => pyFloat s
  | Json.null => none
  | Json.arr _ => none
  | Json.obj _ => none

/-- The distinct error responses of `ArraySumToolView._process_request`,
one constructor per message; `attributeError` stands for the blanket
500 handler catching `input_data.get` on a non-dict. -/
inductive ToolErr where
  | invalidJsonArrayFormat
  | invalidNumberMultiple
  | invalidNumberComma
  | invalidNumberSingle
  | missingParams
  | inputMustBeArray
  | allElementsMustBeNumbers
  | attributeError
deriving DecidableEq

/-- The success payload: the sum and the element count. -/
structure ToolResult where
  result : Rat
  count : Nat
deriving DecidableEq

/-- The MalformedArrayError class of the spec: the array parameter fails
to parse as JSON, or parses to a non-array. -/
def isMalformedArrayError (e : ToolErr) : Prop :=
  e = ToolErr.invalidJsonArrayFormat ∨ e = ToolErr.inputMustBeArray

/-- The InvalidNumberError class of the spec: some element or segment is
not coercible to a number. -/
def isInvalidNumberError (e : ToolErr) : Prop :=
  e = ToolErr.invalidNumberMultiple ∨ e = ToolErr.invalidNumberComma
    ∨ e = ToolErr.invalidNumberSingle ∨ e = ToolErr.allElementsMustBeNumbers

/-- The MissingInputError class of the spec. -/
def isMissingInputError (e : ToolErr) : Prop :=
  e = ToolErr.missingParams

/-- Python truthiness of an optional string parameter: absent and empty
are both falsy. -/
def truthy (o : Option String) : Option String :=
  match o with
  | some s => if s = "" then none else some s
  | none => none

/-- Parse every string with `float(x.strip())`, failing with the given
branch error on the first unparsable one. -/
def parseAll (err : ToolErr) : List String → Except ToolErr (List Rat)
  | [] => Except.ok []
  | x :: rest =>
    match pyFloat x with
    | none => Except.error err
    | some q =>
      match parseAll err rest with
      | Except.error e => Except.error e
      | Except.ok qs => Except.ok (q :: qs)

/-- Python `str.split(",")`: the empty string yields one empty segment. -/
def splitOnComma : List Char → List (List Char)
  | [] => [[]]
  | ',' :: rest => [] :: splitOnComma rest
  | c :: rest =>
    match splitOnComma rest with
    | g :: gs => (c :: g) :: gs
    | [] => [[c]]

/-- Comma segments of a values parameter. -/
def splitValues (s : String) : List String :=
  (splitOnComma s.data).map String.mk

/-- Coerce every decoded element with `float(x)`, failing on the first
non-coercible one (the shared `All array elements must be numbers`
check). -/
def coerce_all : List Json → Except ToolErr (List Rat)
  | [] => Except.ok []
  | x :: rest =>
    match jsonToPyFloat x with
    | none => Except.error ToolErr.allElementsMustBeNumbers
    | some q =>
      match coerce_all rest with
      | Except.error e => Except.error e
      | Except.ok qs => Except.ok (q :: qs)

/-- The GET half of `ArraySumToolView._process_request`: a truthy `array`
parameter wins and is parsed as JSON; otherwise the `values` occurrences
are used (`query_params.get` returns the last occurrence, `getlist` all
of them); otherwise the missing-parameters error. -/
def normalize_get (values : List String) (array : Option String) :
    Except ToolErr (List Rat) :=
  match truthy array with
  | some a =>
    match parseJson a with
    | none => Except.error ToolErr.invalidJsonArrayFormat
    | some (Json.arr xs) => coerce_all xs
    | some _ => Except.error ToolErr.inputMustBeArray
  | none =>
    match truthy values.getLast? with
    | none => Except.error ToolErr.missingParams
    | some v =>
      if values.length > 1 then parseAll ToolErr.invalidNumberMultiple values
      else if ',' ∈ v.data then parseAll ToolErr.invalidNumberComma (splitValues v)
      else
        match pyFloat v with
        | none => Except.error ToolErr.invalidNumberSingle
        | some q => Except.ok [q]

/-- Field lookup in a decoded JSON object (`dict.get`). -/
def lookupField (fields : List (String × Json)) (k : String) : Option Json :=
  (fields.find? (fun p => p.1 == k)).map Prod.snd

/-- The POST half of `_process_request`: `input_data` defaults to the
empty dict and its `array` field to the empty list, so both absences
succeed with an empty sequence; a non-dict `input_data` crashes in the
blanket handler (500); a non-list `array` is rejected. -/
def normalize_post (body : List (String × Json)) : Except ToolErr (List Rat) :=
  match lookupField body "input_data" with
  | none => Except.ok []
  | some (Json.obj fields) =>
    match lookupField fields "array" with
    | none => Except.ok []
    | some (Json.arr xs) => coerce_all xs
    | some _ => Except.error ToolErr.inputMustBeArray
  | some _ => Except.error ToolErr.attributeError

/-- GET request endpoint: normalize, then report sum and count. -/
def process_get (values : List String) (array : Option String) :
    Except ToolErr ToolResult :=
  match normalize_get values array with
  | Except.error e => Except.error e
  | Except.ok xs => Except.ok ⟨xs.sum, xs.length⟩

/-- POST request endpoint: normalize the body, then report sum and
count. -/
def process_post (body : List (String × Json)) : Except ToolErr ToolResult :=
  match normalize_post body with
  | Except.error e => Except.error e
  | Except.ok xs => Except.ok ⟨xs.sum, xs.length⟩

/-- The structured body of scenario 7 of the spec. -/
def c3body : List (String × Json) :=
  [("input_data", Json.obj [("array", Json.arr [Json.num 1, Json.num 2, Json.num 3])])]

/-- The structured body for the C9 witness, carrying a non-numeric
element. -/
def c9body : List (String × Json) :=
  [("input_data", Json.obj [("array", Json.arr [Json.str "x"])])]

/-- C1: a request scoped to account A can neither see nor mutate a record
owned by a different account B. The by-id retrieve, update and delete all
answer NotFound, exactly as they do for a primary key that exists nowhere,
and every record the scoped queryset returns is owned by A. -/
theorem c1_cross_account_isolation
    (db : Db) (aStr : String) (a b : Int) (e : Expense)
    (hparse : pyInt aStr = some a)
    (hab : a ≠ b)
    (hmem : e ∈ db.expenses)
    (howner : e.userId = b)
    (hunique : ∀ x ∈ db.expenses, x.id = e.id → x = e) :
    get_object db (some aStr) e.id = none
    ∧ retrieve db (some aStr) e.id = Except.error ExpErr.notFound
    ∧ (∀ pk, (∀ x ∈ db.expenses, x.id ≠ pk) →
        retrieve db (some aStr) pk = Except.error ExpErr.notFound)
    ∧ update_expense_amount db (some aStr) e.id 999 = (Except.error ExpErr.notFound, db)
    ∧ destroy_expense db (some aStr) e.id = (Except.error ExpErr.notFound, db)
    ∧ (∀ x ∈ get_queryset db (some aStr), x.userId = a) := by
  have hneStr : (aStr == "") = false := by
    cases hse : (aStr == "") with
    | true =>
      have : aStr = "" := by simpa using hse
      subst this
      simp [pyInt, stripChars, dropWs] at hparse
    | false => rfl
  have hq : get_queryset db (some aStr) =
      db.expenses.filter (fun x => x.userId == a && userActive db a) := by
    simp [get_queryset, hneStr, hparse]
  have hscope : ∀ x ∈ get_queryset db (some aStr), x.userId = a := by
    intro x hx
    rw [hq] at hx
    have := List.mem_filter.mp hx
    have hb := this.2
    simp only [Bool.and_eq_true, beq_iff_eq] at hb
    exact hb.1
  have hobj : get_object db (some aStr) e.id = none := by
    unfold get_object
    rw [List.find?_eq_none]
    intro x hx
    have hxa : x.userId = a := hscope x hx
    have hxmem : x ∈ db.expenses := by
      rw [hq] at hx
      exact (List.mem_filter.mp hx).1
    intro hid
    have hide : x.id = e.id := by simpa using hid
    have hxe : x = e := hunique x hxmem hide
    apply hab
    rw [← hxa, hxe, howner]
  refine ⟨hobj, ?_, ?_, ?_, ?_, hscope⟩
  · simp [retrieve, hobj]
  · intro pk hpk
    have hobj2 : get_object db (some aStr) pk = none := by
      unfold get_object
      rw [List.find?_eq_none]
      intro x hx hid
      have hxmem : x ∈ db.expenses := by
        rw [hq] at hx
        exact (List.mem_filter.mp hx).1
      exact hpk x hxmem (by simpa using hid)
    simp [retrieve, hobj2]
  · simp [update_expense_amount, hobj]
  · simp [destroy_expense, hobj]

/-- Witness for C1 at a concrete store: account 1 looking up the record
of account 2 gets NotFound on all three by-id operations. -/
theorem c1_cross_account_isolation_witness :
    get_object c1db (some "1") 10 = none
    ∧ retrieve c1db (some "1") 10 = Except.error ExpErr.notFound
    ∧ (∀ pk, (∀ x ∈ c1db.expenses, x.id ≠ pk) →
        retrieve c1db (some "1") pk = Except.error ExpErr.notFound)
    ∧ update_expense_amount c1db (some "1") 10 999 = (Except.error ExpErr.notFound, c1db)
    ∧ destroy_expense c1db (some "1") 10 = (Except.error ExpErr.notFound, c1db)
    ∧ (∀ x ∈ get_queryset c1db (some "1"), x.userId = 1) := by
  have h := c1_cross_account_isolation c1db "1" 1 2 c1exp (by decide) (by decide)
    (by decide) (by decide) (by decide)
  exact h

theorem aggregate_sum_getD (q : List Expense) (t : String) :
    (aggregate_sum q t).getD 0 = kind_sum q t := by
  unfold aggregate_sum kind_sum
  cases hf : q.filter (fun e => e.transactionType == t) with
  | nil => simp
  | cons x xs => simp

theorem summary_ok (db : Db) (userid : Option String) (df dt : Option Date)
    (s : Summary) (h : summary db userid df dt = Except.ok s) :
    s = summary_of db (summary_queryset db userid df dt) := by
  unfold summary at h
  split at h
  · exact Except.noConfusion h
  · split at h
    · exact Except.noConfusion h
    · split at h
      · exact Except.noConfusion h
      · split at h
        · injection h with h1
          exact h1.symm
        · exact Except.noConfusion h

/-- C2: on every successful summary, each per-kind total equals the plain
sum of amounts of the scoped, filtered records of that kind (0 when there
is none), and the net balance is (income + credit) minus (expense + debt);
amounts are exact integer hundredths, so arithmetic is exact fixed-point
with 2 fractional digits. -/
theorem c2_summary_totals
    (db : Db) (userid : Option String) (df dt : Option Date) (s : Summary)
    (h : summary db userid df dt = Except.ok s) :
    s.totalExpenses = kind_sum (summary_queryset db userid df dt) "expense"
    ∧ s.totalIncome = kind_sum (summary_queryset db userid df dt) "income"
    ∧ s.totalDebt = kind_sum (summary_queryset db userid df dt) "debt"
    ∧ s.totalCredit = kind_sum (summary_queryset db userid df dt) "credit"
    ∧ s.netBalance = (s.totalIncome + s.totalCredit) - (s.totalExpenses + s.totalDebt)
    ∧ s.transactionCount = (summary_queryset db userid df dt).length := by
  have hshape := summary_ok db userid df dt s h
  subst hshape
  refine ⟨?_, ?_, ?_, ?_, ?_, ?_⟩ <;> simp [summary_of, aggregate_sum_getD]

/-- Witness for C2 on a concrete store (two expenses of 10.00 and 5.00 in
category Food, one income of 50.00). -/
theorem c2_summary_totals_witness :
    summary c2db (some "1") none none = Except.ok c2sum
    ∧ c2sum.netBalance
        = (c2sum.totalIncome + c2sum.totalCredit) - (c2sum.totalExpenses + c2sum.totalDebt)
    ∧ c2sum.totalExpenses = kind_sum (summary_queryset c2db (some "1") none none) "expense" := by
  have hsum : summary c2db (some "1") none none = Except.ok c2sum := by decide
  have h := c2_summary_totals c2db (some "1") none none c2sum hsum
  exact ⟨hsum, h.2.2.2.2.1, h.1⟩

theorem mem_insertByTotalDesc (z x : String × Int) (l : List (String × Int)) :
    z ∈ insertByTotalDesc x l ↔ z = x ∨ z ∈ l := by
  induction l with
  | nil => simp [insertByTotalDesc]
  | cons y ys ih =>
    rw [insertByTotalDesc]
    by_cases h : x.2 < y.2
    · rw [if_pos h]
      simp only [List.mem_cons, ih]
      tauto
    · rw [if_neg h]
      simp only [List.mem_cons]

theorem mem_sortByTotalDesc (z : String × Int) (l : List (String × Int)) :
    z ∈ sortByTotalDesc l ↔ z ∈ l := by
  induction l with
  | nil => simp [sortByTotalDesc]
  | cons x xs ih =>
    show z ∈ insertByTotalDesc x (sortByTotalDesc xs) ↔ z ∈ x :: xs
    rw [mem_insertByTotalDesc]
    simp only [List.mem_cons, ih]

theorem chain_insertByTotalDesc (x : String × Int) (l : List (String × Int))
    (h : List.Chain' (fun a b => b.2 ≤ a.2) l) :
    List.Chain' (fun a b => b.2 ≤ a.2) (insertByTotalDesc x l) := by
  induction l with
  | nil => simp [insertByTotalDesc]
  | cons y ys ih =>
    rw [insertByTotalDesc]
    by_cases hxy : x.2 < y.2
    · rw [if_pos hxy]
      have hys : List.Chain' (fun a b => b.2 ≤ a.2) ys := (List.chain'_cons'.mp h).2
      apply List.chain'_cons'.mpr
      refine ⟨?_, ih hys⟩
      intro z hz
      cases ys with
      | nil =>
        simp [insertByTotalDesc] at hz
        subst hz
        exact le_of_lt hxy
      | cons w ws =>
        rw [insertByTotalDesc] at hz
        by_cases hxw : x.2 < w.2
        · rw [if_pos hxw] at hz
          simp at hz
          subst hz
          exact (List.chain'_cons.mp h).1
        · rw [if_neg hxw] at hz
          simp at hz
          subst hz
          exact le_of_lt hxy
    · rw [if_neg hxy]
      exact List.chain'_cons.mpr ⟨not_lt.mp hxy, h⟩

theorem chain_sortByTotalDesc (l : List (String × Int)) :
    List.Chain' (fun a b => b.2 ≤ a.2) (sortByTotalDesc l) := by
  induction l with
  | nil => simp [sortByTotalDesc]
  | cons x xs ih => exact chain_insertByTotalDesc x (sortByTotalDesc xs) ih

theorem mem_dedupFirst_aux {α : Type} [DecidableEq α] (l : List α) (acc : List α) (m : α) :
    m ∈ l.foldl (fun acc n => if n ∈ acc then acc else acc ++ [n]) acc
      ↔ m ∈ acc ∨ m ∈ l := by
  induction l generalizing acc with
  | nil => simp
  | cons x xs ih =>
    simp only [List.foldl_cons]
    by_cases hx : x ∈ acc
    · rw [if_pos hx, ih]
      simp only [List.mem_cons]
      constructor
      · rintro (h | h)
        · exact Or.inl h
        · exact Or.inr (Or.inr h)
      · rintro (h | h | h)
        · exact Or.inl h
        · exact Or.inl (h ▸ hx)
        · exact Or.inr h
    · rw [if_neg hx, ih]
      simp only [List.mem_append, List.mem_singleton, List.mem_cons]
      tauto

theorem mem_dedupFirst {α : Type} [DecidableEq α] (l : List α) (m : α) :
    m ∈ dedupFirst l ↔ m ∈ l := by
  unfold dedupFirst
  rw [mem_dedupFirst_aux]
  simp

/-- C6 counterexample: on a store whose two tied expense categories are
stored as "b" before "a", the computed breakdown keeps "b" first, while
the claimed ordering (ties broken by category name ascending) would put
"a" first; the tie order mirrors the store order, so it is not a function
of the record set alone. -/
theorem c6_breakdown_tiebreak_counterexample :
    summary c6db (some "1") none none = Except.ok c6sum
    ∧ c6sum.categoryBreakdown = [("b", 500), ("a", 500)]
    ∧ spec_category_breakdown c6db (summary_queryset c6db (some "1") none none)
        = [("a", 500), ("b", 500)]
    ∧ c6sum.categoryBreakdown
        ≠ spec_category_breakdown c6db (summary_queryset c6db (some "1") none none) := by
  refine ⟨by decide, by decide, by decide, by decide⟩

/-- C6 amended: on every successful summary the category breakdown is
restricted to expense-kind records, each entry carries the exact sum of
its category, and entries are ordered descending by summed amount; no
tie-break on the category name is performed, so the relative order of
equal sums follows the unspecified group order of the store. -/
theorem c6_breakdown_descending
    (db : Db) (userid : Option String) (df dt : Option Date) (s : Summary)
    (h : summary db userid df dt = Except.ok s) :
    List.Chain' (fun a b : String × Int => b.2 ≤ a.2) s.categoryBreakdown
    ∧ ∀ p ∈ s.categoryBreakdown,
        p.2 = expense_category_sum db (summary_queryset db userid df dt) p.1
        ∧ ∃ e ∈ summary_queryset db userid df dt,
            e.transactionType = "expense" ∧ category_name db e = p.1 := by
  have hshape := summary_ok db userid df dt s h
  subst hshape
  constructor
  · show List.Chain' (fun a b : String × Int => b.2 ≤ a.2)
      (category_breakdown db (summary_queryset db userid df dt))
    unfold category_breakdown
    exact chain_sortByTotalDesc _
  · intro p hp
    have hp2 : p ∈ category_breakdown db (summary_queryset db userid df dt) := hp
    unfold category_breakdown at hp2
    rw [mem_sortByTotalDesc] at hp2
    rcases List.mem_map.mp hp2 with ⟨n, hn, hpn⟩
    subst hpn
    rw [mem_dedupFirst] at hn
    rcases List.mem_map.mp hn with ⟨e, he, hcat⟩
    have hef := List.mem_filter.mp he
    exact ⟨rfl, ⟨e, hef.1, by simpa using hef.2, hcat⟩⟩

/-- Witness for the amended C6 on the tied-categories store. -/
theorem c6_breakdown_descending_witness :
    summary c6db (some "1") none none = Except.ok c6sum
    ∧ List.Chain' (fun a b : String × Int => b.2 ≤ a.2) c6sum.categoryBreakdown := by
  have hsum : summary c6db (some "1") none none = Except.ok c6sum := by decide
  exact ⟨hsum, (c6_breakdown_descending c6db (some "1") none none c6sum hsum).1⟩

theorem mem_get_queryset (db : Db) (userid : Option String) (e : Expense)
    (he : e ∈ get_queryset db userid) : e ∈ db.expenses := by
  unfold get_queryset at he
  split at he
  · simp at he
  · split at he
    · simp at he
    · split at he
      · simp at he
      · exact (List.mem_filter.mp he).1

theorem monthly_report_ok (db : Db) (userid : Option String)
    (yp mp : Option String) (now : Date) (r : MonthlyReport)
    (h : monthly_report db userid yp mp now = Except.ok r) :
    ∃ s yv mv, userid = some s
      ∧ parse_param_or now.year yp = some yv
      ∧ parse_param_or now.month mp = some mv
      ∧ r = monthly_report_of db (some s) yv mv := by
  unfold monthly_report at h
  split at h
  · exact Except.noConfusion h
  · split at h
    · exact Except.noConfusion h
    · split at h
      · exact Except.noConfusion h
      · split at h
        · split at h
          · injection h with h1
            exact ⟨_, _, _, rfl, by assumption, by assumption, h1.symm⟩
          · exact Except.noConfusion h
          · exact Except.noConfusion h
        · exact Except.noConfusion h

/-- C4 counterexample: a monthly-report request with month=13 and a valid
scope does not fail; it returns 200 with an empty report (the month
filter simply matches nothing). -/
theorem c4_month13_counterexample :
    monthly_report c4db (some "1") none (some "13") ⟨2024, 1, 15⟩
      = Except.ok ⟨2024, 13, [], [], 0, 0⟩ := by decide

/-- C4 amended: the code performs no range check on the month parameter;
when the month parses to a value outside 1..12 and every stored date has a
valid month, the report succeeds with no daily totals, no category
totals, total amount 0 and total count 0. -/
theorem c4_month_out_of_range_returns_empty
    (db : Db) (userid : Option String) (yp : Option String) (ms : String)
    (m : Int) (now : Date) (r : MonthlyReport)
    (hm : pyInt ms = some m)
    (hrange : m < 1 ∨ 12 < m)
    (hdates : ∀ e ∈ db.expenses, 1 ≤ e.date.month ∧ e.date.month ≤ 12)
    (h : monthly_report db userid yp (some ms) now = Except.ok r) :
    r.month = m ∧ r.dailyTotals = [] ∧ r.categoryTotals = []
      ∧ r.totalAmount = 0 ∧ r.totalCount = 0 := by
  rcases monthly_report_ok db userid yp (some ms) now r h with
    ⟨s, yv, mv, hus, hy, hm2, hr⟩
  have hmv : mv = m := by
    rw [parse_param_or] at hm2
    rw [hm] at hm2
    injection hm2 with h3
    exact h3.symm
  subst hmv
  subst hr
  have hq : month_queryset db (some s) yv mv = [] := by
    unfold month_queryset
    rw [List.filter_eq_nil_iff]
    intro e he
    rcases hdates e (mem_get_queryset db (some s) e he) with ⟨h1, h2⟩
    intro hcond
    simp only [Bool.and_eq_true, beq_iff_eq] at hcond
    rcases hcond with ⟨_, hmon⟩
    rcases hrange with hlt | hgt
    · omega
    · omega
  refine ⟨rfl, ?_, ?_, ?_, ?_⟩ <;>
    simp [monthly_report_of, hq, daily_totals, category_totals, dedupFirst]

/-- Witness for the amended C4 at month=13 on the concrete store. -/
theorem c4_month_out_of_range_returns_empty_witness :
    monthly_report c4db (some "1") none (some "13") ⟨2024, 1, 15⟩
      = Except.ok ⟨2024, 13, [], [], 0, 0⟩
    ∧ (MonthlyReport.mk 2024 13 [] [] 0 0).dailyTotals = [] := by
  have hrep : monthly_report c4db (some "1") none (some "13") ⟨2024, 1, 15⟩
      = Except.ok ⟨2024, 13, [], [], 0, 0⟩ := by decide
  exact ⟨hrep, (c4_month_out_of_range_returns_empty c4db (some "1") none "13" 13
    ⟨2024, 1, 15⟩ ⟨2024, 13, [], [], 0, 0⟩ (by decide) (by decide) (by decide) hrep).2.1⟩

theorem validate_create_mismatch_fails
    (db : Db) (d : CreatePayload) (cid : Int) (cat : ExpenseCategory) (t : String)
    (hcid : d.categoryId = some cid)
    (hcat : find_category db cid = some cat)
    (ht : d.transactionType = some t)
    (htt : t ≠ "")
    (hne : cat.transactionType ≠ t) :
    ∃ ve, validate_create db d = Except.error ve := by
  by_cases ha : d.amount ≤ 0
  · exact ⟨ValErr.amountNotPositive, by simp [validate_create, ha]⟩
  · by_cases hc0 : cid = 0
    · exact ⟨ValErr.categoryRequired, by simp [validate_create, ha, hcid, hc0]⟩
    · exact ⟨ValErr.typeMismatch,
        by simp [validate_create, ha, hcid, hc0, hcat, ht, htt, hne]⟩

/-- C7 (evaluating the code at the failing input): with the scoping
parameter absent, both list endpoints answer with the empty result set
and the summary and monthly-report aggregates answer 400; but a create
with a valid payload reaches `perform_create`, whose
`raise PermissionDenied` line hits an unresolved name and so raises
NameError — a 500 server error, not a 400-class response. -/
theorem c7_absent_userid_outcomes
    (db : Db) (newId : Int) (d : CreatePayload) (df dt : Option Date)
    (yp mp : Option String) (now : Date)
    (hval : validate_create db d = Except.ok ()) :
    list_expenses db none = []
    ∧ list_tags db none = []
    ∧ summary db none df dt
        = Except.error (ExpErr.badRequest "userid parameter is required")
    ∧ monthly_report db none yp mp now
        = Except.error (ExpErr.badRequest "userid parameter is required")
    ∧ create_expense db none newId d = (Except.error CreateErr.nameError, db) := by
  refine ⟨rfl, rfl, rfl, rfl, ?_⟩
  unfold create_expense
  rw [hval]
  rfl

/-- Witness for C7 on the concrete store with a valid payload. -/
theorem c7_absent_userid_outcomes_witness :
    create_expense c2db none 99 c7payload = (Except.error CreateErr.nameError, c2db)
    ∧ list_expenses c2db none = [] := by
  have h := c7_absent_userid_outcomes c2db 99 c7payload none none none none
    ⟨2024, 1, 15⟩ (by decide)
  exact ⟨h.2.2.2.2, h.1⟩

/-- C8: a create that attaches an existing category and supplies a truthy
transaction kind different from the declared category kind fails with a
ValidationError and leaves the store unchanged; when the supplied kind
equals the category kind, validation never emits the mismatch error. -/
theorem c8_kind_category_consistency
    (db : Db) (userid : Option String) (newId : Int) (d : CreatePayload)
    (cid : Int) (cat : ExpenseCategory) (t : String)
    (hcid : d.categoryId = some cid)
    (hcat : find_category db cid = some cat)
    (ht : d.transactionType = some t)
    (htt : t ≠ "") :
    (cat.transactionType ≠ t →
      ∃ ve, create_expense db userid newId d
        = (Except.error (CreateErr.validation ve), db))
    ∧ (cat.transactionType = t →
      validate_create db d ≠ Except.error ValErr.typeMismatch) := by
  constructor
  · intro hne
    rcases validate_create_mismatch_fails db d cid cat t hcid hcat ht htt hne with ⟨ve, hv⟩
    refine ⟨ve, ?_⟩
    unfold create_expense
    rw [hv]
  · intro heq hbad
    unfold validate_create at hbad
    rw [hcid, ht] at hbad
    by_cases ha : d.amount ≤ 0
    · rw [if_pos ha] at hbad
      simp at hbad
    · rw [if_neg ha] at hbad
      by_cases hc0 : cid = 0
      · simp [hc0] at hbad
      · simp [hc0, hcat, htt, heq] at hbad

/-- Witness for C8: supplying kind income against the expense category
Food is rejected with the mismatch ValidationError and persists nothing;
the matching payload passes validation. -/
theorem c8_kind_category_consistency_witness :
    create_expense c2db (some "1") 99 c8payload
      = (Except.error (CreateErr.validation ValErr.typeMismatch), c2db)
    ∧ (∃ ve, create_expense c2db (some "1") 99 c8payload
        = (Except.error (CreateErr.validation ve), c2db))
    ∧ validate_create c2db c7payload ≠ Except.error ValErr.typeMismatch := by
  refine ⟨by decide, ?_, ?_⟩
  · exact (c8_kind_category_consistency c2db (some "1") 99 c8payload 1
      ⟨1, "Food", "#fff", "expense", true⟩ "income" (by decide) (by decide)
      (by decide) (by decide)).1 (by decide)
  · exact (c8_kind_category_consistency c2db (some "1") 99 c7payload 1
      ⟨1, "Food", "#fff", "expense", true⟩ "expense" (by decide) (by decide)
      (by decide) (by decide)).2 (by decide)

theorem pyInt_some_ne_empty (s : String) (v : Int) (h : pyInt s = some v) :
    s ≠ "" := by
  intro hs
  subst hs
  simp [pyInt, stripChars, dropWs] at h

theorem mem_addAll (ts : List ExpenseTag) (old : List Int) (tid : Int) :
    tid ∈ ts.foldl (fun acc t => if t.id ∈ acc then acc else acc ++ [t.id]) old
      ↔ tid ∈ old ∨ ∃ tg ∈ ts, tg.id = tid := by
  induction ts generalizing old with
  | nil => simp
  | cons t ts ih =>
    simp only [List.foldl_cons]
    by_cases hc : t.id ∈ old
    · rw [if_pos hc, ih]
      constructor
      · rintro (h | h)
        · exact Or.inl h
        · rcases h with ⟨tg, htg, hid⟩
          exact Or.inr ⟨tg, List.mem_cons_of_mem t htg, hid⟩
      · rintro (h | ⟨tg, htg, hid⟩)
        · exact Or.inl h
        · rcases List.mem_cons.mp htg with heq | htg2
          · subst heq
            exact Or.inl (hid ▸ hc)
          · exact Or.inr ⟨tg, htg2, hid⟩
    · rw [if_neg hc, ih]
      constructor
      · rintro (h | h)
        · rcases List.mem_append.mp h with h2 | h2
          · exact Or.inl h2
          · have h3 : tid = t.id := by simpa using h2
            exact Or.inr ⟨t, List.mem_cons_self t ts, h3.symm⟩
        · rcases h with ⟨tg, htg, hid⟩
          exact Or.inr ⟨tg, List.mem_cons_of_mem t htg, hid⟩
      · rintro (h | ⟨tg, htg, hid⟩)
        · exact Or.inl (List.mem_append.mpr (Or.inl h))
        · rcases List.mem_cons.mp htg with heq | htg2
          · subst heq
            exact Or.inl (List.mem_append.mpr (Or.inr (by simp [hid])))
          · exact Or.inr ⟨tg, htg2, hid⟩

theorem mem_owned_filter (db : Db) (uid : Int) (tagIds : List Int) (tid : Int) :
    (∃ tg ∈ owned_tag_rows db uid tagIds, tg.id = tid)
      ↔ tid ∈ tagIds ∧ owned_active_tag db uid tid := by
  unfold owned_tag_rows owned_active_tag
  constructor
  · rintro ⟨tg, htg, hid⟩
    have hm := List.mem_filter.mp htg
    have hb := hm.2
    simp only [Bool.and_eq_true, decide_eq_true_eq, beq_iff_eq] at hb
    subst hid
    exact ⟨hb.1.1, tg, hm.1, rfl, hb.1.2, hb.2⟩
  · rintro ⟨hin, tg, htg, hid, howner, hact⟩
    subst hid
    refine ⟨tg, List.mem_filter.mpr ⟨htg, ?_⟩, rfl⟩
    simp only [Bool.and_eq_true, decide_eq_true_eq, beq_iff_eq]
    exact ⟨⟨hin, howner⟩, hact⟩

/-- C10: on a tag attach or detach request with a resolvable scoped
expense and a nonempty id list, the operation succeeds whatever the ids
are; the attached set gains exactly the requested ids that belong to the
scoped active account, the detached set loses exactly those, and foreign
or non-existent ids have no effect. -/
theorem c10_foreign_tags_ignored
    (db : Db) (s : String) (uid : Int) (pk : Int) (tagIds : List Int) (e : Expense)
    (hs : pyInt s = some uid)
    (hobj : get_object db (some s) pk = some e)
    (hids : tagIds ≠ []) :
    (add_tags db (some s) pk tagIds).1
        = Except.ok { e with tagIds := added_tag_ids db uid tagIds e.tagIds }
    ∧ (remove_tags db (some s) pk tagIds).1
        = Except.ok { e with tagIds := removed_tag_ids db uid tagIds e.tagIds }
    ∧ (∀ tid, tid ∈ added_tag_ids db uid tagIds e.tagIds
        ↔ tid ∈ e.tagIds ∨ (tid ∈ tagIds ∧ owned_active_tag db uid tid))
    ∧ (∀ tid, tid ∈ removed_tag_ids db uid tagIds e.tagIds
        ↔ tid ∈ e.tagIds ∧ ¬(tid ∈ tagIds ∧ owned_active_tag db uid tid)) := by
  have hse : ¬(s = "") := pyInt_some_ne_empty s uid hs
  refine ⟨?_, ?_, ?_, ?_⟩
  · simp only [add_tags, hobj, hs]
    rw [if_neg hids, if_neg hse]
  · simp only [remove_tags, hobj, hs]
    rw [if_neg hids, if_neg hse]
  · intro tid
    unfold added_tag_ids
    rw [mem_addAll]
    rw [mem_owned_filter]
  · intro tid
    unfold removed_tag_ids
    rw [List.mem_filter]
    constructor
    · rintro ⟨hmem, hb⟩
      simp only [Bool.not_eq_true', decide_eq_false_iff_not] at hb
      refine ⟨hmem, ?_⟩
      intro hcon
      apply hb
      rcases (mem_owned_filter db uid tagIds tid).mpr hcon with ⟨tg, htg, hid⟩
      exact List.mem_map.mpr ⟨tg, htg, hid⟩
    · rintro ⟨hmem, hncon⟩
      refine ⟨hmem, ?_⟩
      simp only [Bool.not_eq_true', decide_eq_false_iff_not]
      intro hmap
      apply hncon
      rcases List.mem_map.mp hmap with ⟨tg, htg, hid⟩
      exact (mem_owned_filter db uid tagIds tid).mp ⟨tg, htg, hid⟩

/-- Witness for C10: requesting ids 5 (owned), 6 (foreign) and 7
(non-existent) attaches only tag 5 and leaves the foreign tag relation 6
untouched by the detach of the same list. -/
theorem c10_foreign_tags_ignored_witness :
    (add_tags c10db (some "1") 10 [5, 6, 7]).1
        = Except.ok { c10exp with tagIds := added_tag_ids c10db 1 [5, 6, 7] c10exp.tagIds }
    ∧ added_tag_ids c10db 1 [5, 6, 7] c10exp.tagIds = [6, 5]
    ∧ removed_tag_ids c10db 1 [5, 6, 7] c10exp.tagIds = [6] := by
  refine ⟨(c10_foreign_tags_ignored c10db "1" 1 10 [5, 6, 7] c10exp (by decide)
    (by decide) (by decide)).1, by decide, by decide⟩

attribute [local semireducible] Rat.add Rat.mul Rat.inv Rat.sub in
theorem norm_comma_123 : normalize_get ["1,2,3"] none = Except.ok [1, 2, 3] := by
  decide

attribute [local semireducible] Rat.add Rat.mul Rat.inv Rat.sub in
theorem norm_repeat_123 : normalize_get ["1", "2", "3"] none = Except.ok [1, 2, 3] := by
  decide

attribute [local semireducible] Rat.add Rat.mul Rat.inv Rat.sub in
theorem norm_jsonparam_123 : normalize_get [] (some "[1,2,3]") = Except.ok [1, 2, 3] := by
  decide

attribute [local semireducible] Rat.add Rat.mul Rat.inv Rat.sub in
theorem norm_body_123 : normalize_post c3body = Except.ok [1, 2, 3] := by
  decide

attribute [local semireducible] Rat.add Rat.mul Rat.inv Rat.sub in
theorem scenario_comma : process_get ["1,2,3"] none = Except.ok ⟨6, 3⟩ := by
  decide

attribute [local semireducible] Rat.add Rat.mul Rat.inv Rat.sub in
theorem scenario_repeat : process_get ["1", "2", "3"] none = Except.ok ⟨6, 3⟩ := by
  decide

attribute [local semireducible] Rat.add Rat.mul Rat.inv Rat.sub in
theorem scenario_jsonparam : process_get [] (some "[1,2,3]") = Except.ok ⟨6, 3⟩ := by
  decide

attribute [local semireducible] Rat.add Rat.mul Rat.inv Rat.sub in
theorem scenario_body : process_post c3body = Except.ok ⟨6, 3⟩ := by
  decide

/-- C3: whenever the four supported encodings normalize to the same
sequence, all four requests answer with the same result (the sum of that
sequence) and the same count (its length); in particular the scenario
inputs values=1,2,3 / values=1&values=2&values=3 / array=[1,2,3] / body
input_data.array=[1,2,3] each yield result 6 and count 3. -/
theorem c3_encodings_agree
    (v : String) (vs : List String) (a : String) (body : List (String × Json))
    (xs : List Rat)
    (h1 : normalize_get [v] none = Except.ok xs)
    (h2 : normalize_get vs none = Except.ok xs)
    (h3 : normalize_get [] (some a) = Except.ok xs)
    (h4 : normalize_post body = Except.ok xs) :
    process_get [v] none = Except.ok ⟨xs.sum, xs.length⟩
    ∧ process_get vs none = Except.ok ⟨xs.sum, xs.length⟩
    ∧ process_get [] (some a) = Except.ok ⟨xs.sum, xs.length⟩
    ∧ process_post body = Except.ok ⟨xs.sum, xs.length⟩
    ∧ process_get ["1,2,3"] none = Except.ok ⟨6, 3⟩
    ∧ process_get ["1", "2", "3"] none = Except.ok ⟨6, 3⟩
    ∧ process_get [] (some "[1,2,3]") = Except.ok ⟨6, 3⟩
    ∧ process_post c3body = Except.ok ⟨6, 3⟩ := by
  refine ⟨?_, ?_, ?_, ?_, scenario_comma, scenario_repeat, scenario_jsonparam,
    scenario_body⟩
  · unfold process_get
    rw [h1]
  · unfold process_get
    rw [h2]
  · unfold process_get
    rw [h3]
  · unfold process_post
    rw [h4]

/-- Witness for C3 at the scenario inputs, all normalizing to [1, 2, 3]. -/
theorem c3_encodings_agree_witness :
    process_get ["1,2,3"] none
        = Except.ok ⟨([1, 2, 3] : List Rat).sum, ([1, 2, 3] : List Rat).length⟩
    ∧ process_get ["1", "2", "3"] none
        = Except.ok ⟨([1, 2, 3] : List Rat).sum, ([1, 2, 3] : List Rat).length⟩
    ∧ process_get [] (some "[1,2,3]")
        = Except.ok ⟨([1, 2, 3] : List Rat).sum, ([1, 2, 3] : List Rat).length⟩
    ∧ process_post c3body
        = Except.ok ⟨([1, 2, 3] : List Rat).sum, ([1, 2, 3] : List Rat).length⟩ := by
  have h := c3_encodings_agree "1,2,3" ["1", "2", "3"] "[1,2,3]" c3body [1, 2, 3]
    norm_comma_123 norm_repeat_123 norm_jsonparam_123 norm_body_123
  exact ⟨h.1, h.2.1, h.2.2.1, h.2.2.2.1⟩

/-- C5 counterexample: a POST whose body lacks the array field (or lacks
input_data entirely) does not fail with MissingInputError; it succeeds
with result 0 and count 0, because the missing field defaults to the
empty list. -/
theorem c5_post_empty_body_counterexample :
    process_post [] = Except.ok ⟨0, 0⟩
    ∧ process_post [("input_data", Json.obj [])] = Except.ok ⟨0, 0⟩ := ⟨rfl, rfl⟩

/-- C5 amended: a GET with neither a truthy values occurrence nor a
truthy array parameter fails with the missing-parameters error
(MissingInputError); a POST without an input_data object or without an
array field inside it succeeds with result 0 and count 0. -/
theorem c5_missing_input
    (values : List String) (array : Option String) (body : List (String × Json))
    (hv : truthy values.getLast? = none)
    (ha : truthy array = none)
    (hb : lookupField body "input_data" = none
          ∨ ∃ fs, lookupField body "input_data" = some (Json.obj fs)
              ∧ lookupField fs "array" = none) :
    process_get values array = Except.error ToolErr.missingParams
    ∧ isMissingInputError ToolErr.missingParams
    ∧ process_post body = Except.ok ⟨0, 0⟩ := by
  refine ⟨?_, rfl, ?_⟩
  · unfold process_get normalize_get
    rw [ha, hv]
  · rcases hb with hb | ⟨fs, hb, hfs⟩
    · simp only [process_post, normalize_post, hb, List.sum_nil, List.length_nil]
    · simp only [process_post, normalize_post, hb, hfs, List.sum_nil, List.length_nil]

/-- Witness for the amended C5: empty GET fails MissingInput, empty POST
succeeds with 0. -/
theorem c5_missing_input_witness :
    process_get [] none = Except.error ToolErr.missingParams
    ∧ process_post [] = Except.ok ⟨0, 0⟩ := by
  have h := c5_missing_input [] none [] rfl rfl (Or.inl rfl)
  exact ⟨h.1, h.2.2⟩

theorem coerce_all_bad (xs : List Json) (x : Json) (hx : x ∈ xs)
    (hbad : jsonToPyFloat x = none) :
    coerce_all xs = Except.error ToolErr.allElementsMustBeNumbers := by
  induction xs with
  | nil => cases hx
  | cons y ys ih =>
    rcases List.mem_cons.mp hx with rfl | h2
    · unfold coerce_all
      rw [hbad]
    · unfold coerce_all
      cases hy : jsonToPyFloat y with
      | none => rfl
      | some q => rw [ih h2]

/-- C9 counterexample: an array parameter that is present but empty is
falsy, so the code treats it as absent: the request fails with the
missing-parameters error, not the MalformedArrayError the claim requires
for every non-JSON array value (the empty string is not valid JSON). -/
theorem c9_empty_array_param_counterexample :
    parseJson "" = none
    ∧ process_get [] (some "") = Except.error ToolErr.missingParams
    ∧ ¬ isMalformedArrayError ToolErr.missingParams := by
  refine ⟨rfl, rfl, ?_⟩
  intro h
  rcases h with h | h <;> exact ToolErr.noConfusion h

/-- C9 amended: a GET whose array parameter is non-empty and either not
valid JSON or not a JSON array fails with a MalformedArrayError-class
response, and a POST whose array field holds an element not coercible to
a number fails with the InvalidNumberError-class response. -/
theorem c9_malformed_inputs
    (values : List String) (a : String) (body : List (String × Json))
    (fs : List (String × Json)) (xs : List Json) (x : Json)
    (hne : a ≠ "")
    (hbadjson : parseJson a = none
        ∨ ∃ j, parseJson a = some j ∧ ∀ ys, j ≠ Json.arr ys)
    (hbody : lookupField body "input_data" = some (Json.obj fs))
    (harr : lookupField fs "array" = some (Json.arr xs))
    (hx : x ∈ xs) (hxbad : jsonToPyFloat x = none) :
    (∃ e, process_get values (some a) = Except.error e ∧ isMalformedArrayError e)
    ∧ process_post body = Except.error ToolErr.allElementsMustBeNumbers
    ∧ isInvalidNumberError ToolErr.allElementsMustBeNumbers := by
  have htr : truthy (some a) = some a := by
    simp [truthy, hne]
  refine ⟨?_, ?_, Or.inr (Or.inr (Or.inr rfl))⟩
  · rcases hbadjson with hb | ⟨j, hj, hnarr⟩
    · refine ⟨ToolErr.invalidJsonArrayFormat, ?_, Or.inl rfl⟩
      simp only [process_get, normalize_get, htr, hb]
    · refine ⟨ToolErr.inputMustBeArray, ?_, Or.inr rfl⟩
      simp only [process_get, normalize_get, htr, hj]
  · have hc := coerce_all_bad xs x hx hxbad
    simp only [process_post, normalize_post, hbody, harr, hc]

/-- Witness for the amended C9 at array=notjson and body array ["x"]. -/
theorem c9_malformed_inputs_witness :
    (∃ e, process_get [] (some "notjson") = Except.error e ∧ isMalformedArrayError e)
    ∧ process_post c9body = Except.error ToolErr.allElementsMustBeNumbers := by
  have h := c9_malformed_inputs [] "notjson" c9body
    [("array", Json.arr [Json.str "x"])] [Json.str "x"] (Json.str "x")
    (by decide) (Or.inl rfl) rfl rfl (List.mem_cons_self _ _) rfl
  exact ⟨h.1, h.2.1⟩
